import Mathlib

set_option maxRecDepth 8000

/-!
Verification of the classics-server retrieval-and-chunking pipeline.

The Python sources are shallowly embedded as executable Lean definitions:

* `create_search_index.py` : `chunk_text` (paragraph splitting and filtering)
  and `create_docs_from_txt` (document construction).
* `book_rag_cli.py` : `search_index` (positional vs semantic retrieval),
  `get_personality_greeting` and `generate_rag_response` (prompt assembly).
* `app.py` : the `/search-books` endpoint (`search_books`) with its
  per-index error swallowing and index selection.

Text is modelled as `List Char`; the external Azure search, embedding and
chat services are modelled as explicit parameters (functions passed in), so
that the repository orchestration logic is what the theorems talk about.
Nondeterminism (uuid4 draws, random.choice) is modelled by explicit
parameters as well.
-/

/-- ASCII whitespace recognised by Python `str.strip()` (the sources only
ever strip ASCII text). -/
def isPySpace (c : Char) : Bool :=
  c == ' ' || c == '\t' || c == '\n' || c == '\r' || c == '\x0b' || c == '\x0c'

/-- Python `str.strip()`: drop leading and trailing whitespace. -/
def pyStrip (cs : List Char) : List Char :=
  ((cs.dropWhile isPySpace).reverse.dropWhile isPySpace).reverse

/-- Lowercase one ASCII character, as Python `str.lower()` does on ASCII. -/
def toLowerChar (c : Char) : Char :=
  if 'A' ≤ c ∧ c ≤ 'Z' then Char.ofNat (c.toNat + 32) else c

/-- Python `str.lower()` on ASCII text. -/
def pyLower (cs : List Char) : List Char := cs.map toLowerChar

/-- Python substring test `pat in s`. -/
def isInfixB (pat s : List Char) : Bool :=
  s.tails.any (fun t => pat.isPrefixOf t)

/-- Python `s.replace("classic-", "")`: delete every (non-overlapping,
left-to-right) occurrence of the pattern. -/
def removeClassic : List Char → List Char
  | 'c' :: 'l' :: 'a' :: 's' :: 's' :: 'i' :: 'c' :: '-' :: rest => removeClassic rest
  | c :: rest => c :: removeClassic rest
  | [] => []

/-!
## Chunker (`create_search_index.py`, `chunk_text`)

`re.split(r'\n{2,}', text)` splits the text at every maximal run of two or
more newlines.  We implement that split as a left fold: `cur` holds the
current paragraph reversed, `nl` counts newlines seen but not yet committed,
and `done` holds the completed paragraphs in reverse order.
-/

/-- State of the paragraph splitter. -/
structure SplitSt where
  done : List (List Char)
  cur : List Char
  nl : Nat

/-- One step of the paragraph splitter: a newline is buffered; a non-newline
either ends the paragraph (when two or more newlines are pending, as the
regex `\n{2,}` matched) or flushes the pending single newline into the
current paragraph. -/
def splitStep (s : SplitSt) (c : Char) : SplitSt :=
  if c = '\n' then { s with nl := s.nl + 1 }
  else if 2 ≤ s.nl then { done := s.cur.reverse :: s.done, cur := [c], nl := 0 }
  else { s with cur := c :: (List.replicate s.nl '\n' ++ s.cur), nl := 0 }

/-- Final state of the splitter: a trailing run of two or more newlines ends
the text with an empty last paragraph (as `re.split` produces); a single
trailing newline belongs to the last paragraph. -/
def splitFinish (s : SplitSt) : List (List Char) :=
  if 2 ≤ s.nl then (([] : List Char) :: s.cur.reverse :: s.done).reverse
  else ((List.replicate s.nl '\n' ++ s.cur).reverse :: s.done).reverse

/-- `re.split(r'\n{2,}', text)`: the paragraphs of the text. -/
def splitParagraphs (text : List Char) : List (List Char) :=
  splitFinish (text.foldl splitStep ⟨[], [], 0⟩)

/-- `chunk_text` from `create_search_index.py`:
`[p.strip() for p in re.split(r'\n{2,}', text) if len(p.strip()) > chunk_size]`. -/
def chunk_text (text : List Char) (chunk_size : Nat) : List (List Char) :=
  ((splitParagraphs text).map pyStrip).filter (fun p => chunk_size < p.length)

/-- Sanity: the splitter agrees with `re.split(r'\n{2,}', ...)` on a text
with single newlines, a paragraph break and a greedy three-newline run. -/
theorem splitParagraphs_sanity :
    splitParagraphs "a\nb\n\nc\n\n\nd".toList
      = ["a\nb".toList, ['c'], ['d']] := by decide

/-- Sanity: leading and trailing blank-line runs produce empty paragraphs,
as `re.split` does. -/
theorem splitParagraphs_sanity_edges :
    splitParagraphs "\n\na\n\n".toList = [[], ['a'], []] ∧
    splitParagraphs "".toList = [[]] := by decide

/-- Dropping while a predicate fails on the head leaves the list unchanged. -/
theorem dropWhile_cons_false (p : Char → Bool) (c : Char) (rest : List Char)
    (h : p c = false) : (c :: rest).dropWhile p = c :: rest := by
  simp [List.dropWhile_cons, h]

/-- `pyStrip` is the identity on a list whose first and last characters are
not whitespace. -/
theorem pyStrip_of_clean_ends (c d : Char) (mid : List Char)
    (hc : isPySpace c = false) (hd : isPySpace d = false) :
    pyStrip (c :: (mid ++ [d])) = c :: (mid ++ [d]) := by
  unfold pyStrip
  rw [dropWhile_cons_false _ _ _ hc]
  have hrev : (c :: (mid ++ [d])).reverse = d :: (mid.reverse ++ [c]) := by simp
  rw [hrev, dropWhile_cons_false _ _ _ hd, ← hrev, List.reverse_reverse]

/-- Folding the splitter over newline-free text just accumulates the text
into the current paragraph. -/
theorem foldl_splitStep_no_newline (cs : List Char) (done : List (List Char))
    (rev : List Char) (h : ∀ c ∈ cs, c ≠ '\n') :
    cs.foldl splitStep ⟨done, rev, 0⟩ = ⟨done, cs.reverse ++ rev, 0⟩ := by
  induction cs generalizing rev with
  | nil => simp
  | cons c cs ih =>
    have hc : c ≠ '\n' := h c (by simp)
    have step : splitStep ⟨done, rev, 0⟩ c = ⟨done, c :: rev, 0⟩ := by
      simp [splitStep, hc]
    rw [List.foldl_cons, step, ih (c :: rev) (fun x hx => h x (List.mem_cons_of_mem c hx))]
    simp

/-- A newline-free text is a single paragraph. -/
theorem splitParagraphs_no_newline (cs : List Char) (h : ∀ c ∈ cs, c ≠ '\n') :
    splitParagraphs cs = [cs] := by
  unfold splitParagraphs
  rw [foldl_splitStep_no_newline cs [] [] h]
  simp [splitFinish]

/-- A text of two newline-free paragraphs separated by a double newline
splits into exactly those two paragraphs. -/
theorem splitParagraphs_two (A B : List Char) (b : Char)
    (hA : ∀ c ∈ A, c ≠ '\n') (hb : b ≠ '\n') (hB : ∀ c ∈ B, c ≠ '\n') :
    splitParagraphs (A ++ '\n' :: '\n' :: b :: B) = [A, b :: B] := by
  unfold splitParagraphs
  rw [List.foldl_append, foldl_splitStep_no_newline A [] [] hA]
  rw [List.foldl_cons, List.foldl_cons, List.foldl_cons]
  have s1 : splitStep ⟨[], A.reverse ++ [], 0⟩ '\n' = ⟨[], A.reverse ++ [], 1⟩ := by
    simp [splitStep]
  have s2 : splitStep ⟨[], A.reverse ++ [], 1⟩ '\n' = ⟨[], A.reverse ++ [], 2⟩ := by
    simp [splitStep]
  have s3 : splitStep ⟨[], A.reverse ++ [], 2⟩ b = ⟨[A], [b], 0⟩ := by
    simp [splitStep, hb]
  rw [s1, s2, s3, foldl_splitStep_no_newline B [A] [b] hB]
  simp [splitFinish]

/-- The concrete 501-character paragraph used by the chunker witness. -/
def longPara : List Char := 'a' :: (List.replicate 499 'a' ++ ['a'])

/-- Every character of `longPara` is the letter a. -/
theorem mem_longPara (c : Char) (hc : c ∈ longPara) : c = 'a' := by
  simp [longPara, List.mem_replicate] at hc
  tauto

/-- C1: the chunker keeps exactly the trimmed paragraphs whose trimmed
length exceeds the threshold 500: every such paragraph appears (trimmed) as
a chunk, once per qualifying paragraph occurrence (the chunk list counts
agree with the paragraph counts); a paragraph of trimmed length at most 500
never appears as a chunk; and every chunk is the trim of some paragraph and
has length above 500. -/
theorem chunk_text_keeps_exactly_long_paragraphs (text : List Char) :
    (∀ p ∈ splitParagraphs text, 500 < (pyStrip p).length →
        pyStrip p ∈ chunk_text text 500) ∧
    (∀ s : List Char, 500 < s.length →
        (chunk_text text 500).count s = ((splitParagraphs text).map pyStrip).count s) ∧
    (∀ p ∈ splitParagraphs text, (pyStrip p).length ≤ 500 →
        pyStrip p ∉ chunk_text text 500) ∧
    (∀ s ∈ chunk_text text 500,
        500 < s.length ∧ ∃ p ∈ splitParagraphs text, pyStrip p = s) := by
  refine ⟨?_, ?_, ?_, ?_⟩
  · intro p hp hlen
    exact List.mem_filter.mpr ⟨List.mem_map.mpr ⟨p, hp, rfl⟩, by simpa using hlen⟩
  · intro s hs
    exact List.count_filter (by simpa using hs)
  · intro p hp hlen hmem
    have h2 := (List.mem_filter.mp hmem).2
    simp only [decide_eq_true_eq] at h2
    omega
  · intro s hs
    obtain ⟨hmem, hlen⟩ := List.mem_filter.mp hs
    obtain ⟨p, hp, rfl⟩ := List.mem_map.mp hmem
    exact ⟨by simpa using hlen, p, hp, rfl⟩

/-- Witness for C1 at concrete inputs: a 501-character paragraph is kept as
a chunk, and a short paragraph is never a chunk. -/
theorem chunk_text_keeps_exactly_long_paragraphs_witness :
    pyStrip longPara ∈ chunk_text longPara 500 ∧
    pyStrip ['h', 'i'] ∉ chunk_text ['h', 'i'] 500 := by
  constructor
  · apply (chunk_text_keeps_exactly_long_paragraphs longPara).1
    · rw [splitParagraphs_no_newline longPara
        (fun c hc => by rw [mem_longPara c hc]; decide)]
      simp
    · rw [show pyStrip longPara = longPara from
        pyStrip_of_clean_ends 'a' 'a' (List.replicate 499 'a') (by decide) (by decide)]
      simp [longPara]
  · exact (chunk_text_keeps_exactly_long_paragraphs ['h', 'i']).2.2.1
      ['h', 'i'] (by decide) (by decide)

/-!
## Documents and the retriever (`book_rag_cli.py`, `search_index`)

A `Doc` is a record of the fields the retriever selects
(`select=["id", "content", "title", "filepath"]`); the embedding vector and
url are never read on any search path of the claims and are omitted.  The
external Azure index, per its contract consumed by the repository, is a
collection of documents; `order_by=["id asc"]` with empty search text and
`top=1` returns the first document of the collection sorted ascending by
identifier (code-point lexicographic string order).  Semantic and plain
keyword queries are ranked by the service, so they enter the model as
opaque functions in a `SearchBackend`.
-/

/-- A stored search document, restricted to the selected fields. -/
structure Doc where
  id : String
  content : String
  title : String
  filepath : String
deriving DecidableEq

/-- Code-point lexicographic order on strings (as character lists), the
order used by the search service for `order_by=["id asc"]`. -/
def strLeb : List Char → List Char → Bool
  | [], _ => true
  | _ :: _, [] => false
  | a :: as, b :: bs =>
    if a.toNat < b.toNat then true
    else if b.toNat < a.toNat then false
    else strLeb as bs

theorem strLeb_refl (a : List Char) : strLeb a a = true := by
  induction a with
  | nil => rfl
  | cons c cs ih => simp [strLeb, ih]

theorem strLeb_cons_iff (x y : Char) (xs ys : List Char) :
    strLeb (x :: xs) (y :: ys) = true ↔
      x.toNat < y.toNat ∨ (x.toNat = y.toNat ∧ strLeb xs ys = true) := by
  simp only [strLeb]
  split_ifs with h1 h2
  · simp [h1]
  · constructor
    · intro h; exact absurd h (by simp)
    · rintro (h | ⟨h, -⟩) <;> omega
  · have hxy : x.toNat = y.toNat := by omega
    simp [hxy]

theorem strLeb_total (a b : List Char) : strLeb a b = true ∨ strLeb b a = true := by
  induction a generalizing b with
  | nil => left; rfl
  | cons c cs ih =>
    cases b with
    | nil => right; rfl
    | cons d ds =>
      by_cases h1 : c.toNat < d.toNat
      · left; simp [strLeb, h1]
      · by_cases h2 : d.toNat < c.toNat
        · right; simp [strLeb, h2]
        · rcases ih ds with h | h
          · left; simp [strLeb, h1, h2, h]
          · right; simp [strLeb, h1, h2, h]

theorem strLeb_trans (a b c : List Char) (hab : strLeb a b = true)
    (hbc : strLeb b c = true) : strLeb a c = true := by
  induction a generalizing b c with
  | nil => rfl
  | cons x xs ih =>
    cases b with
    | nil => simp [strLeb] at hab
    | cons y ys =>
      cases c with
      | nil => simp [strLeb] at hbc
      | cons z zs =>
        rcases (strLeb_cons_iff x y xs ys).mp hab with h1 | ⟨h1, h1s⟩ <;>
          rcases (strLeb_cons_iff y z ys zs).mp hbc with h2 | ⟨h2, h2s⟩
        · exact (strLeb_cons_iff x z xs zs).mpr (Or.inl (by omega))
        · exact (strLeb_cons_iff x z xs zs).mpr (Or.inl (by omega))
        · exact (strLeb_cons_iff x z xs zs).mpr (Or.inl (by omega))
        · exact (strLeb_cons_iff x z xs zs).mpr
            (Or.inr ⟨by omega, ih ys zs h1s h2s⟩)

/-- Ascending identifier order on documents. -/
def rId (a b : Doc) : Prop := strLeb a.id.data b.id.data = true

instance : DecidableRel rId :=
  fun a b => inferInstanceAs (Decidable (strLeb a.id.data b.id.data = true))

instance : IsTotal Doc rId := ⟨fun a b => strLeb_total a.id.data b.id.data⟩

instance : IsTrans Doc rId := ⟨fun a b c => strLeb_trans a.id.data b.id.data c.id.data⟩

/-- The index contents sorted ascending by identifier: the service response
to `order_by=["id asc"]`. -/
def sort_by_id (docs : List Doc) : List Doc := List.insertionSort rId docs

/-- The externally ranked query modes of the search service, opaque to the
repository code. -/
structure SearchBackend where
  semanticSearch : List Doc → List Char → Nat → List Doc
  keywordSearch : List Doc → List Char → Nat → List Doc

/-- The fixed keyword set of `search_index`
(`["first line", "opening", "begin", "start"]`). -/
def posKeywords : List (List Char) :=
  ["first line".toList, "opening".toList, "begin".toList, "start".toList]

/-- `any(x in query.lower() for x in ["first line", "opening", "begin", "start"])`. -/
def containsPosKeyword (query : List Char) : Bool :=
  posKeywords.any (fun x => isInfixB x (pyLower query))

/-- `search_index` from `book_rag_cli.py`: positional mode (keyword query)
issues an ordered fetch of one document; semantic mode issues a semantic
query for the top `k` and falls back to a plain keyword query for the same
`k` when it returns nothing. -/
def search_index (backend : SearchBackend) (index_docs : List Doc)
    (query : List Char) (k : Nat) : List Doc :=
  let use_semantic_search := !containsPosKeyword query
  if use_semantic_search = false then
    (sort_by_id index_docs).take 1
  else
    let results_list := backend.semanticSearch index_docs query k
    if results_list.isEmpty then backend.keywordSearch index_docs query k
    else results_list

/-- C2: for a query containing a positional keyword, `search_index` returns
at most one document, and on a non-empty index it returns exactly the
document whose identifier sorts first ascending. -/
theorem search_index_positional_first (backend : SearchBackend) (docs : List Doc)
    (query : List Char) (k : Nat) (h : containsPosKeyword query = true) :
    (search_index backend docs query k).length ≤ 1 ∧
    (docs ≠ [] → ∃ d, search_index backend docs query k = [d] ∧ d ∈ docs ∧
        ∀ e ∈ docs, strLeb d.id.data e.id.data = true) := by
  have hpos : search_index backend docs query k = (sort_by_id docs).take 1 := by
    simp [search_index, h]
  rw [hpos]
  have hperm := List.perm_insertionSort rId docs
  have hsorted := List.sorted_insertionSort rId docs
  unfold sort_by_id
  constructor
  · cases List.insertionSort rId docs with
    | nil => simp
    | cons d rest => simp
  · intro hne
    cases hl : List.insertionSort rId docs with
    | nil =>
      rw [hl] at hperm
      exact absurd hperm.symm.eq_nil hne
    | cons d rest =>
      rw [hl] at hperm hsorted
      refine ⟨d, by simp, hperm.mem_iff.mp (by simp), ?_⟩
      intro e he
      rcases List.mem_cons.mp (hperm.mem_iff.mpr he) with rfl | hmem
      · exact strLeb_refl _
      · exact List.rel_of_sorted_cons hsorted e hmem

/-- A backend that never returns anything (the positional path never
consults it). -/
def backend0 : SearchBackend := ⟨fun _ _ _ => [], fun _ _ _ => []⟩

/-- Concrete document stored second in text order but first in id order. -/
def docFirstId : Doc := ⟨"a-1", "second chunk text", "T - Chunk 2", "assets/t.txt"⟩

/-- Concrete document stored first in text order but second in id order. -/
def docSecondId : Doc := ⟨"b-2", "first chunk text", "T - Chunk 1", "assets/t.txt"⟩

/-- Witness for C2: on a concrete two-document index and the query
"opening", at most one document comes back. -/
theorem search_index_positional_first_witness :
    (search_index backend0 [docSecondId, docFirstId] "opening".toList 5).length ≤ 1 :=
  (search_index_positional_first backend0 [docSecondId, docFirstId]
    "opening".toList 5 (by decide)).1

/-- C8: in positional mode the result does not depend on the query text:
any two keyword-bearing queries over the same index and limit give the same
result. -/
theorem search_index_positional_query_independent (backend : SearchBackend)
    (docs : List Doc) (q1 q2 : List Char) (k : Nat)
    (h1 : containsPosKeyword q1 = true) (h2 : containsPosKeyword q2 = true) :
    search_index backend docs q1 k = search_index backend docs q2 k := by
  simp [search_index, h1, h2]

/-- Witness for C8 at two concrete distinct positional queries. -/
theorem search_index_positional_query_independent_witness :
    search_index backend0 [docSecondId, docFirstId] "What is the opening?".toList 5 =
      search_index backend0 [docSecondId, docFirstId] "where does it begin".toList 5 :=
  search_index_positional_query_independent backend0 [docSecondId, docFirstId]
    "What is the opening?".toList "where does it begin".toList 5 (by decide) (by decide)

/-- C4: in semantic mode, a non-empty semantic result is returned as is; an
empty semantic result triggers a plain keyword retry with the same query
and limit; and an empty final result means both the semantic query and the
keyword retry returned nothing. -/
theorem search_index_semantic_fallback (backend : SearchBackend) (docs : List Doc)
    (query : List Char) (k : Nat) (h : containsPosKeyword query = false) :
    (backend.semanticSearch docs query k ≠ [] →
        search_index backend docs query k = backend.semanticSearch docs query k) ∧
    (backend.semanticSearch docs query k = [] →
        search_index backend docs query k = backend.keywordSearch docs query k) ∧
    (search_index backend docs query k = [] →
        backend.semanticSearch docs query k = [] ∧
        backend.keywordSearch docs query k = []) := by
  have hsem : search_index backend docs query k =
      (if (backend.semanticSearch docs query k).isEmpty then
        backend.keywordSearch docs query k
      else backend.semanticSearch docs query k) := by
    simp [search_index, h]
  refine ⟨?_, ?_, ?_⟩
  · intro hne
    rw [hsem, if_neg]
    simp [List.isEmpty_iff, hne]
  · intro he
    rw [hsem, if_pos]
    simp [he]
  · intro hempty
    rw [hsem] at hempty
    split_ifs at hempty with hcond
    · exact ⟨List.isEmpty_iff.mp hcond, hempty⟩
    · exact absurd (List.isEmpty_iff.mpr hempty) hcond

/-- A backend whose semantic mode finds nothing but whose keyword mode
finds one document. -/
def backendKwOnly : SearchBackend := ⟨fun _ _ _ => [], fun _ _ _ => [docFirstId]⟩

/-- Witness for C4: on a concrete non-positional query with zero semantic
hits, the result is the keyword retry result. -/
theorem search_index_semantic_fallback_witness :
    search_index backendKwOnly [docSecondId, docFirstId] "hello".toList 5 =
      backendKwOnly.keywordSearch [docSecondId, docFirstId] "hello".toList 5 :=
  (search_index_semantic_fallback backendKwOnly [docSecondId, docFirstId]
    "hello".toList 5 (by decide)).2.1 rfl

/-!
## Document construction (`create_search_index.py`, `create_docs_from_txt`)
and the positional-retrieval defect (C3)

`create_docs_from_txt` assigns `str(uuid.uuid4())` as each document id; the
random draws are modelled as a caller-supplied stream `ids`.  Positional
retrieval sorts by `id asc` with the source comment "Assuming id is
organized by position in book" — an assumption the random draws do not
establish.
-/

/-- Models `create_docs_from_txt` from `create_search_index.py`: the file
content read from disk arrives as `text`, the book title (derived in Python
from the file name) as `book_title`, the file base name as `basename`.  The
`uuid.uuid4()` draw of each chunk is the caller-supplied stream `ids`; the
embedding call and the `contentVector` and `url` fields are omitted, as no
search path of the claims reads them. -/
def create_docs_from_txt (ids : Nat → String) (text : List Char)
    (book_title : String) (basename : String) : List Doc :=
  ((chunk_text text 500).enum).map (fun p =>
    { id := ids p.1,
      content := String.mk p.2,
      title := book_title ++ " - Chunk " ++ toString (p.1 + 1),
      filepath := "assets/" ++ basename })

/-- Elements of an append avoid the newline when both parts do. -/
theorem no_newline_append (l1 l2 : List Char) (h1 : ∀ c ∈ l1, c ≠ '\n')
    (h2 : ∀ c ∈ l2, c ≠ '\n') : ∀ c ∈ l1 ++ l2, c ≠ '\n' :=
  fun c hc => (List.mem_append.mp hc).elim (h1 c) (h2 c)

/-- Elements of a replicate of a non-newline character avoid the newline. -/
theorem no_newline_replicate (n : Nat) (a : Char) (h : a ≠ '\n') :
    ∀ c ∈ List.replicate n a, c ≠ '\n' :=
  fun _ hc => (List.eq_of_mem_replicate hc) ▸ h

/-- Interior of the first (text-order) Moby Dick paragraph. -/
def mobyMid1 : List Char := "all me Ishmael. ".toList ++ List.replicate 490 'x'

/-- The first paragraph in text order: the opening chunk, 508 characters. -/
def mobyChunk1 : List Char := 'C' :: (mobyMid1 ++ ['.'])

/-- Interior of the second (text-order) paragraph. -/
def mobyMid2 : List Char := "t was an unrelated paragraph. ".toList ++ List.replicate 490 'y'

/-- The second paragraph in text order, 522 characters. -/
def mobyChunk2 : List Char := 'I' :: (mobyMid2 ++ ['.'])

/-- The book text: two long paragraphs separated by a blank line. -/
def mobyText : List Char := mobyChunk1 ++ '\n' :: '\n' :: mobyChunk2

theorem mobyChunk1_no_newline : ∀ c ∈ mobyChunk1, c ≠ '\n' := by
  intro c hc
  rcases List.mem_cons.mp hc with rfl | hc
  · decide
  · exact no_newline_append _ _
      (no_newline_append _ _ (by decide) (no_newline_replicate 490 'x' (by decide)))
      (by decide) c hc

theorem mobyTail2_no_newline : ∀ c ∈ mobyMid2 ++ ['.'], c ≠ '\n' :=
  no_newline_append _ _
    (no_newline_append _ _ (by decide) (no_newline_replicate 490 'y' (by decide)))
    (by decide)

theorem pyStrip_mobyChunk1 : pyStrip mobyChunk1 = mobyChunk1 :=
  pyStrip_of_clean_ends 'C' '.' mobyMid1 (by decide) (by decide)

theorem pyStrip_mobyChunk2 : pyStrip mobyChunk2 = mobyChunk2 :=
  pyStrip_of_clean_ends 'I' '.' mobyMid2 (by decide) (by decide)

theorem mobyChunk1_length : mobyChunk1.length = 508 := by
  have h : ("all me Ishmael. ".toList).length = 16 := rfl
  simp [mobyChunk1, mobyMid1, h]

theorem mobyChunk2_length : mobyChunk2.length = 522 := by
  have h : ("t was an unrelated paragraph. ".toList).length = 30 := rfl
  simp [mobyChunk2, mobyMid2, h]

/-- The chunker keeps both Moby Dick paragraphs, in text order. -/
theorem chunk_text_mobyText : chunk_text mobyText 500 = [mobyChunk1, mobyChunk2] := by
  unfold chunk_text
  rw [show mobyText = mobyChunk1 ++ '\n' :: '\n' :: 'I' :: (mobyMid2 ++ ['.']) from rfl]
  rw [splitParagraphs_two _ _ _ mobyChunk1_no_newline (by decide) mobyTail2_no_newline]
  rw [show ('I' :: (mobyMid2 ++ ['.'])) = mobyChunk2 from rfl]
  simp [pyStrip_mobyChunk1, pyStrip_mobyChunk2, List.filter,
    mobyChunk1_length, mobyChunk2_length]

/-- A concrete pair of uuid4 draws in which the draw for the text-order
first chunk happens to sort after the draw for the second chunk. -/
def mobyIds : Nat → String := fun n =>
  if n = 0 then "ffffffff-0000-4000-8000-000000000000"
  else "00000000-0000-4000-8000-000000000001"

/-- The Moby Dick index contents as built by `create_docs_from_txt` under
the `mobyIds` uuid draws. -/
def mobyDocs : List Doc := create_docs_from_txt mobyIds mobyText "Moby Dick" "moby-dick.txt"

/-- The document holding the opening chunk (text-order first). -/
def mobyDoc1 : Doc :=
  ⟨"ffffffff-0000-4000-8000-000000000000", String.mk mobyChunk1,
    "Moby Dick - Chunk 1", "assets/moby-dick.txt"⟩

/-- The document holding the second chunk (but the id that sorts first). -/
def mobyDoc2 : Doc :=
  ⟨"00000000-0000-4000-8000-000000000001", String.mk mobyChunk2,
    "Moby Dick - Chunk 2", "assets/moby-dick.txt"⟩

theorem mobyDocs_eq : mobyDocs = [mobyDoc1, mobyDoc2] := by
  unfold mobyDocs create_docs_from_txt
  rw [chunk_text_mobyText]
  rfl

/-- The positional query of the claim. -/
def mobyQuery : List Char := "What is the opening line of Moby Dick?".toList

/-- C3 (code bug): on the index built from the Moby Dick text under the
`mobyIds` uuid draws, the positional query is classified positionally and
retrieval by ascending identifier returns only the second text-order chunk,
so the opening chunk content never reaches the response-generation
contexts — random uuid assignment breaks the "id is organized by position"
assumption of `search_index`. -/
theorem positional_retrieval_misses_opening_chunk :
    containsPosKeyword mobyQuery = true ∧
    (mobyDocs.map Doc.content).head? = some (String.mk mobyChunk1) ∧
    (search_index backend0 mobyDocs mobyQuery 5).map Doc.content
      = [String.mk mobyChunk2] ∧
    String.mk mobyChunk1 ∉ (search_index backend0 mobyDocs mobyQuery 5).map Doc.content := by
  have hq : containsPosKeyword mobyQuery = true := by decide
  have hr : ¬ rId mobyDoc1 mobyDoc2 := by
    unfold rId mobyDoc1 mobyDoc2
    decide
  have hsort : sort_by_id [mobyDoc1, mobyDoc2] = [mobyDoc2, mobyDoc1] := by
    simp [sort_by_id, List.insertionSort, List.orderedInsert, hr]
  have hsearch : search_index backend0 mobyDocs mobyQuery 5 = [mobyDoc2] := by
    rw [mobyDocs_eq]
    simp [search_index, hq, hsort]
  have hne : String.mk mobyChunk1 ≠ String.mk mobyChunk2 := by
    intro h
    have h2 : mobyChunk1 = mobyChunk2 := congrArg String.data h
    have h3 : mobyChunk1.head? = mobyChunk2.head? := congrArg List.head? h2
    simp [mobyChunk1, mobyChunk2] at h3
  refine ⟨hq, ?_, ?_, ?_⟩
  · rw [mobyDocs_eq]; rfl
  · rw [hsearch]; rfl
  · rw [hsearch]
    simp [mobyDoc2, hne]

/-!
## Response generation (`book_rag_cli.py`, `get_personality_greeting` and
`generate_rag_response`)

`random.choice` over a greeting list is modelled by a caller-supplied draw
`pick`, reduced modulo the list length.  The external chat-completion call
is not performed; `generate_rag_response` returns a `GenResult` that is
either a greeting (no model call is issued on that branch) or the
two-message exchange it would send to the chat service.
-/

/-- The `classic_literature` greeting list. -/
def greetings_classic : List String :=
  ["Greetings, literary enthusiast! I\x27m your guide through the timeless world of classic literature. What would you like to explore today?",
   "Welcome to the realm of classic literature! Shall we dive into a particular book or discuss literary themes?",
   "Hello! I\x27m your classic literature companion. Would you like to analyze a specific work or compare different books?",
   "Greetings! As your literary guide, I can help you explore themes, characters, or historical context. What interests you today?"]

/-- The `philosopher` greeting list. -/
def greetings_philosopher : List String :=
  ["Greetings, seeker of wisdom! I\x27m here to explore the philosophical depths of classic literature. What profound questions shall we contemplate?",
   "Welcome! As a philosophical guide through literature, I can help you examine deeper meanings and existential themes. What shall we explore?",
   "Hello! I\x27m ready to engage in thoughtful discourse about the philosophical implications in classic works. What would you like to discuss?",
   "Greetings! Let\x27s examine the philosophical underpinnings of classic literature together. What work or theme shall we analyze?"]

/-- The `storyteller` greeting list. -/
def greetings_storyteller : List String :=
  ["Welcome to the magical world of storytelling! I\x27m here to bring classic literature to life. What tale shall we explore today?",
   "Greetings, fellow story lover! I can help you discover the narrative wonders of classic literature. What story captures your interest?",
   "Hello! As your storytelling companion, I\x27m ready to weave the tales of classic literature. What would you like to hear about?",
   "Welcome! Let\x27s embark on a journey through the pages of classic literature. What story would you like to explore?"]

/-- The `critic` greeting list. -/
def greetings_critic : List String :=
  ["Greetings! As your literary critic, I\x27m ready to provide detailed analysis of classic works. What shall we examine today?",
   "Welcome! I\x27m here to offer critical insights into classic literature. Which work or author would you like to discuss?",
   "Hello! As your literary analyst, I can help you understand the nuances of classic works. What would you like to explore?",
   "Greetings! Let\x27s examine the literary merits and historical significance of classic works. What shall we analyze?"]

/-- The `greetings` dict of `get_personality_greeting`, as a lookup. -/
def greetings_dict (p : String) : Option (List String) :=
  if p = "classic_literature" then some greetings_classic
  else if p = "philosopher" then some greetings_philosopher
  else if p = "storyteller" then some greetings_storyteller
  else if p = "critic" then some greetings_critic
  else none

/-- `get_personality_greeting`: look the personality up, defaulting to
`classic_literature`, and return the greeting chosen by the `random.choice`
draw `pick`. -/
def get_personality_greeting (pick : Nat) (personality : String) : String :=
  let gs := (greetings_dict personality).getD greetings_classic
  gs.getD (pick % gs.length) ""

/-- The `classic_literature` system-prompt template. -/
def classic_literature_prompt : String :=
  "You are a helpful AI assistant with expert knowledge about classic literature. Below is information retrieved from classic books. Use it to answer the user\x27s question as accurately and completely as possible. If you\x27re asked about the first line, opening line, or beginning of a book, make sure to directly quote the first line from the retrieved content.\n\n"

/-- The `philosopher` system-prompt template. -/
def philosopher_prompt : String :=
  "You are a philosophical AI assistant who analyzes classic literature through the lens of great thinkers. You provide deep insights and connect literary themes to philosophical concepts. Below is information retrieved from classic books. Use it to answer the user\x27s question with philosophical depth and intellectual rigor.\n\n"

/-- The `storyteller` system-prompt template. -/
def storyteller_prompt : String :=
  "You are a master storyteller AI assistant who brings classic literature to life through engaging narratives. You have a gift for making literary analysis entertaining and accessible. Below is information retrieved from classic books. Use it to answer the user\x27s question with vivid storytelling and engaging explanations.\n\n"

/-- The `critic` system-prompt template. -/
def critic_prompt : String :=
  "You are a literary critic AI assistant who provides detailed analysis and critique of classic literature. You examine themes, writing style, historical context, and literary devices. Below is information retrieved from classic books. Use it to answer the user\x27s question with critical insight and scholarly analysis.\n\n"

/-- The `personality_prompts` dict of `generate_rag_response`. -/
def personality_prompts (p : String) : Option String :=
  if p = "classic_literature" then some classic_literature_prompt
  else if p = "philosopher" then some philosopher_prompt
  else if p = "storyteller" then some storyteller_prompt
  else if p = "critic" then some critic_prompt
  else none

/-- The fixed formatting rules appended to every system prompt. -/
def important_instructions : String :=
  "Important instructions:\n1. If the retrieved content contains the answer, provide it directly.\n2. For quotes, use the exact text from the source material.\n3. If the content does not fully answer the question, be clear about what you do know and what you don\x27t.\n4. Only say you don\x27t know if there is absolutely no relevant information in the retrieved content.\n\nRetrieved Content:\n"

/-- One step of the `book_contexts` grouping dict: append to an existing
title group, or add a new group at the end (Python dicts preserve insertion
order). -/
def insert_ctx (acc : List (String × List Doc)) (c : Doc) : List (String × List Doc) :=
  if acc.any (fun p => p.1 = c.title) then
    acc.map (fun p => if p.1 = c.title then (p.1, p.2 ++ [c]) else p)
  else acc ++ [(c.title, [c])]

/-- The contexts grouped by title, in insertion order. -/
def group_by_title (contexts : List Doc) : List (String × List Doc) :=
  contexts.foldl insert_ctx []

/-- Render one title group: the book header line followed by the numbered
passages (`enumerate(ctxs, 1)`). -/
def render_passages (ctxs : List Doc) : String :=
  String.join (ctxs.enum.map (fun p =>
    "Passage " ++ toString (p.1 + 1) ++ " (ID: " ++ p.2.id ++ "): "
      ++ p.2.content ++ "\n\n"))

/-- The `retrieved_text` accumulated over the grouped contexts. -/
def build_retrieved_text (contexts : List Doc) : String :=
  String.join ((group_by_title contexts).map (fun g =>
    "[Book: " ++ g.1 ++ "]\n" ++ render_passages g.2))

/-- Python `str.strip()` on a `String`. -/
def pyStripS (s : String) : String := String.mk (pyStrip s.data)

/-- The system-prompt content: personality template, fixed rules, then the
stripped retrieved text. -/
def build_system_content (base_prompt : String) (contexts : List Doc) : String :=
  base_prompt ++ important_instructions ++ pyStripS (build_retrieved_text contexts)

/-- The user query, with the exact-first-line instruction appended when the
query carries a positional keyword. -/
def augment_query (q : List Char) : String :=
  if containsPosKeyword q then
    String.mk q ++ "\n\nPlease quote the exact first line if it appears in the retrieved passages."
  else String.mk q

/-- A chat message of the two-message exchange. -/
structure ChatMessage where
  role : String
  content : String
deriving DecidableEq

/-- What `generate_rag_response` does: return a greeting without any model
call, or issue one chat-completion call with the given messages. -/
inductive GenResult where
  | greeting (g : String)
  | modelCall (messages : List ChatMessage)
deriving DecidableEq

/-- `generate_rag_response` from `book_rag_cli.py`: a blank query yields a
personality greeting and no model call; otherwise the system prompt is
assembled from the personality template and the grouped contexts and a
single chat call is issued with it and the (possibly augmented) user
query. -/
def generate_rag_response (pick : Nat) (user_query : List Char)
    (contexts : List Doc) (personality : String) : GenResult :=
  if user_query.isEmpty || (pyStrip user_query).isEmpty then
    .greeting (get_personality_greeting pick personality)
  else
    .modelCall
      [⟨"system", build_system_content
          ((personality_prompts personality).getD classic_literature_prompt) contexts⟩,
       ⟨"user", augment_query user_query⟩]

/-- The greeting picked for a personality belongs to the list its lookup
resolves to. -/
theorem get_personality_greeting_mem (pick : Nat) (personality : String)
    (gs : List String) (hdict : (greetings_dict personality).getD greetings_classic = gs)
    (hpos : 0 < gs.length) :
    get_personality_greeting pick personality ∈ gs := by
  unfold get_personality_greeting
  rw [hdict]
  have hlt : pick % gs.length < gs.length := Nat.mod_lt _ hpos
  have hget : gs.getD (pick % gs.length) "" = gs.get ⟨pick % gs.length, hlt⟩ := by
    simp [List.getD_eq_getElem?_getD, List.getElem?_eq_getElem hlt, List.get_eq_getElem]
  rw [hget]
  exact List.get_mem gs _ hlt

/-- C6: a blank (empty or whitespace-only) query with personality
storyteller yields one of the four fixed storyteller greetings, with no
model call (the result is a `greeting`, not a `modelCall`). -/
theorem generate_blank_storyteller_greets (pick : Nat) (q : List Char)
    (contexts : List Doc) (h : (q.isEmpty || (pyStrip q).isEmpty) = true) :
    ∃ g ∈ greetings_storyteller,
      generate_rag_response pick q contexts "storyteller" = .greeting g := by
  refine ⟨get_personality_greeting pick "storyteller", ?_, ?_⟩
  · exact get_personality_greeting_mem pick "storyteller" greetings_storyteller rfl
      (by decide)
  · simp [generate_rag_response, h]

/-- Witness for C6 at a whitespace-only query, draw 0 and no contexts. -/
theorem generate_blank_storyteller_greets_witness :
    ∃ g ∈ greetings_storyteller,
      generate_rag_response 0 " ".toList [] "storyteller" = .greeting g :=
  generate_blank_storyteller_greets 0 " ".toList [] (by decide)

/-- C9: a personality outside the fixed set behaves exactly like
`classic_literature`: the whole result coincides, a blank query yields a
classic_literature greeting, and a non-blank query issues the model call
built on the classic_literature template. -/
theorem generate_unknown_personality_defaults (personality : String) (pick : Nat)
    (q : List Char) (contexts : List Doc)
    (hp : personality ∉ ["classic_literature", "philosopher", "storyteller", "critic"]) :
    generate_rag_response pick q contexts personality =
      generate_rag_response pick q contexts "classic_literature" ∧
    ((q.isEmpty || (pyStrip q).isEmpty) = true →
      ∃ g ∈ greetings_classic,
        generate_rag_response pick q contexts personality = .greeting g) ∧
    ((q.isEmpty || (pyStrip q).isEmpty) = false →
      generate_rag_response pick q contexts personality =
        .modelCall [⟨"system", build_system_content classic_literature_prompt contexts⟩,
          ⟨"user", augment_query q⟩]) := by
  have h1 : personality ≠ "classic_literature" := fun h => hp (by simp [h])
  have h2 : personality ≠ "philosopher" := fun h => hp (by simp [h])
  have h3 : personality ≠ "storyteller" := fun h => hp (by simp [h])
  have h4 : personality ≠ "critic" := fun h => hp (by simp [h])
  have hdict : greetings_dict personality = none := by
    simp [greetings_dict, h1, h2, h3, h4]
  have hprompt : personality_prompts personality = none := by
    simp [personality_prompts, h1, h2, h3, h4]
  refine ⟨?_, ?_, ?_⟩
  · simp [generate_rag_response, get_personality_greeting, greetings_dict,
      personality_prompts, h1, h2, h3, h4]
  · intro hq
    refine ⟨get_personality_greeting pick personality, ?_,
      by simp [generate_rag_response, hq]⟩
    exact get_personality_greeting_mem pick personality greetings_classic
      (by rw [hdict]; rfl) (by decide)
  · intro hq
    simp [generate_rag_response, hq, hprompt]

/-- Witness for C9 with the unknown personality "pirate". -/
theorem generate_unknown_personality_defaults_witness :
    generate_rag_response 0 "hi".toList [] "pirate" =
      generate_rag_response 0 "hi".toList [] "classic_literature" :=
  (generate_unknown_personality_defaults "pirate" 0 "hi".toList [] (by decide)).1

/-!
## Index selection and the `/search-books` endpoint (`app.py`,
`search_books`; same selection loop in `book_rag_cli.py` `main` and
`interactive_cli`)
-/

/-- `book_name.lower() in query.lower()` for
`book_name = index.replace("classic-", "")`. -/
def mentions_book (index query : List Char) : Bool :=
  isInfixB (pyLower (removeClassic index)) (pyLower query)

/-- The first-match-with-break loop over the available indexes: the first
index whose de-prefixed name occurs in the query narrows the search to that
index alone; otherwise all remain active. -/
def select_indexes (available : List (List Char)) (query : List Char) :
    List (List Char) :=
  match available.find? (fun index => mentions_book index query) with
  | some index => [index]
  | none => available

/-- C5: the concrete Frankenstein query restricts the two-index catalog to
`classic-frankenstein`; in general a query mentioning some available index
narrows the search to a single matching index, and a query mentioning none
leaves every available index searched. -/
theorem select_indexes_narrows_on_mention (available : List (List Char))
    (query : List Char) :
    select_indexes ["classic-frankenstein".toList, "classic-moby-dick".toList]
        "Tell me about Frankenstein".toList = ["classic-frankenstein".toList] ∧
    ((∃ idx ∈ available, mentions_book idx query = true) →
      ∃ idx ∈ available, mentions_book idx query = true ∧
        select_indexes available query = [idx]) ∧
    ((∀ idx ∈ available, mentions_book idx query = false) →
      select_indexes available query = available) := by
  refine ⟨by decide, ?_, ?_⟩
  · rintro ⟨idx, hmem, hb⟩
    cases hf : available.find? (fun index => mentions_book index query) with
    | none =>
      exact absurd hb (by simpa using List.find?_eq_none.mp hf idx hmem)
    | some j =>
      refine ⟨j, List.mem_of_find?_eq_some hf, by simpa using List.find?_some hf, ?_⟩
      simp [select_indexes, hf]
  · intro hall
    have hf : available.find? (fun index => mentions_book index query) = none :=
      List.find?_eq_none.mpr (fun x hx => by simp [hall x hx])
    simp [select_indexes, hf]

/-- Witness for C5: a query mentioning no book leaves the whole catalog
searched. -/
theorem select_indexes_narrows_on_mention_witness :
    select_indexes ["classic-moby-dick".toList] "hello".toList
      = ["classic-moby-dick".toList] :=
  (select_indexes_narrows_on_mention ["classic-moby-dick".toList]
    "hello".toList).2.2 (by decide)

/-- C10: when several available indexes are mentioned by the query, the
scan stops at the first match in list order — exactly that index is
selected, and any distinct later index is not searched. -/
theorem select_indexes_first_match (pre : List (List Char)) (idx : List Char)
    (post : List (List Char)) (query : List Char)
    (h1 : ∀ b ∈ pre, mentions_book b query = false)
    (h2 : mentions_book idx query = true) :
    select_indexes (pre ++ idx :: post) query = [idx] ∧
    ∀ b ∈ post, b ≠ idx → b ∉ select_indexes (pre ++ idx :: post) query := by
  have hf : (pre ++ idx :: post).find? (fun index => mentions_book index query)
      = some idx := by
    induction pre with
    | nil =>
      rw [List.nil_append]
      exact List.find?_cons_of_pos _ (by simpa using h2)
    | cons a pre ih =>
      rw [List.cons_append,
        List.find?_cons_of_neg _ (by simp [h1 a (by simp)])]
      exact ih (fun b hb => h1 b (by simp [hb]))
  constructor
  · simp [select_indexes, hf]
  · intro b hb hne
    simp [select_indexes, hf, hne]

/-- Witness for C10: with both books mentioned, only the first listed index
is selected. -/
theorem select_indexes_first_match_witness :
    select_indexes ["classic-moby-dick".toList, "classic-frankenstein".toList]
        "moby-dick and frankenstein".toList = ["classic-moby-dick".toList] :=
  (select_indexes_first_match [] "classic-moby-dick".toList
    ["classic-frankenstein".toList] "moby-dick and frankenstein".toList
    (by simp) (by decide)).1

/-- Outcome of one `/search-books` request. -/
inductive SearchOutcome where
  | ok (results : List Doc) (response : String) (indexes_searched : List (List Char))
  | emptyResult
  | serverError (detail : String)
deriving DecidableEq

/-- One iteration of the per-index loop of `/search-books`: a successful
non-empty search extends the accumulated contexts; an exception from the
search is caught, logged and ignored. -/
def gather_step (searchFn : List Char → Except String (List Doc))
    (acc : List Doc) (index : List Char) : List Doc :=
  match searchFn index with
  | .ok results => if results.isEmpty then acc else acc ++ results
  | .error _ => acc

/-- The `all_contexts` accumulated over the active indexes. -/
def gather_contexts (searchFn : List Char → Except String (List Doc))
    (active : List (List Char)) : List Doc :=
  active.foldl (gather_step searchFn) []

/-- The `/search-books` endpoint of `app.py`: choose the active indexes
(the explicit `index_name` or the mention-narrowed catalog), accumulate
contexts index by index with per-index exceptions swallowed, and either
report the empty-result message or generate a response; only an exception
outside the per-index loop (here: the generation call) becomes a server
error. -/
def search_books (searchFn : List Char → List Char → Nat → Except String (List Doc))
    (genFn : List Char → List Doc → Except String String)
    (available : List (List Char)) (query : List Char)
    (index_name : Option (List Char)) (limit : Nat) : SearchOutcome :=
  let active_indexes :=
    match index_name with
    | some n => [n]
    | none => select_indexes available query
  let all_contexts :=
    gather_contexts (fun index => searchFn index query limit) active_indexes
  if all_contexts.isEmpty then .emptyResult
  else
    match genFn query all_contexts with
    | .ok response => .ok all_contexts response active_indexes
    | .error e => .serverError ("Error processing search request: " ++ e)

/-- A per-index search that raises on the first index and succeeds on the
second. -/
def failingSearchFn : List Char → List Char → Nat → Except String (List Doc) :=
  fun index _ _ =>
    if index = "classic-alpha".toList then .error "connection failure"
    else .ok [docFirstId]

/-- A generation call that always succeeds. -/
def okGenFn : List Char → List Doc → Except String String := fun _ _ => .ok "an answer"

/-- The two-index catalog of the C7 counterexample. -/
def twoIndexes : List (List Char) := ["classic-alpha".toList, "classic-beta".toList]

/-- C7 counterexample: a request during which the per-index search raises
on `classic-alpha` still returns a success response built from the
remaining index, not a server error. -/
theorem search_books_error_not_surfaced_counterexample :
    failingSearchFn "classic-alpha".toList "hello".toList 5
      = .error "connection failure" ∧
    search_books failingSearchFn okGenFn twoIndexes "hello".toList none 5
      = .ok [docFirstId] "an answer" twoIndexes :=
  ⟨rfl, rfl⟩

/-- Replace every raising per-index search with one returning zero
results. -/
def mask_errors (searchFn : List Char → List Char → Nat → Except String (List Doc)) :
    List Char → List Char → Nat → Except String (List Doc) :=
  fun index q k =>
    match searchFn index q k with
    | .error _ => .ok []
    | .ok results => .ok results

/-- Folding the gather loop with pointwise-equal steps gives equal
contexts. -/
theorem foldl_gather_congr (f g : List Char → Except String (List Doc))
    (h : ∀ acc index, gather_step f acc index = gather_step g acc index)
    (active : List (List Char)) (acc : List Doc) :
    active.foldl (gather_step f) acc = active.foldl (gather_step g) acc := by
  induction active generalizing acc with
  | nil => rfl
  | cons a rest ih => rw [List.foldl_cons, List.foldl_cons, h, ih]

/-- C7 amended: on the synchronous `/search-books` path a per-index search
failure is swallowed — the endpoint behaves exactly as if that index had
returned zero results, building its response from the remaining indexes. -/
theorem search_books_swallows_search_errors
    (searchFn : List Char → List Char → Nat → Except String (List Doc))
    (genFn : List Char → List Doc → Except String String)
    (available : List (List Char)) (query : List Char)
    (index_name : Option (List Char)) (limit : Nat) :
    search_books searchFn genFn available query index_name limit =
      search_books (mask_errors searchFn) genFn available query index_name limit := by
  have hstep : ∀ acc index,
      gather_step (fun index => searchFn index query limit) acc index =
      gather_step (fun index => mask_errors searchFn index query limit) acc index := by
    intro acc index
    unfold gather_step mask_errors
    cases h : searchFn index query limit <;> simp [h]
  simp only [search_books, gather_contexts]
  rw [foldl_gather_congr _ _ hstep]
